import Mathlib

/-!
Shallow embedding of `src/torusConnector.ts` (the torus wagmi connector).

The connector's closure state (`__torus`, `network`) is modelled as an
explicit `ConnectorState`.  The external Torus SDK and the JSON-RPC provider
are modelled by a `World` record giving the outcome of each external call
(`login`, `init`, `logout`, `setProvider`, and the provider's `eth_accounts`
and `eth_chainId` requests).  JavaScript exceptions are modelled with
`Except JsError`; `async` methods are sequential `Except` computations
(the `Promise.all` pair in `connect` is sequenced left to right, which is
observationally equivalent here because the world's answers are fixed).

Two external pure utilities are kept abstract, passed as parameters:
`viem`'s `getAddress` (checksum normalization, parameter `gA`) and the
JavaScript `Number` conversion (parameter `jsN`).
-/

namespace TorusConnector

/-- JavaScript error values thrown by the connector: a plain `new Error(msg)`
or viem's `SwitchChainError` wrapping a cause. -/
inductive JsError where
  | error (msg : String)
  | switchChainError (cause : JsError)
deriving Repr, DecidableEq

/-- Discriminates the unsupported-chain error kind (`SwitchChainError`). -/
def JsError.isSwitchChainError : JsError → Bool
  | .switchChainError _ => true
  | .error _ => false

/-- The fields of a viem `Chain` descriptor the connector reads. -/
structure Chain where
  id : Int
  name : String
  nativeCurrencyName : String
  nativeCurrencySymbol : String
  blockExplorerUrl : Option String
  rpcUrlsDefaultHttp : List String
deriving Repr, DecidableEq

/-- The resolved network descriptor (`network` in the source). -/
structure Network where
  host : String
  chainId : Int
  networkName : String
  tickerName : String
  ticker : String
  blockExplorer : String
deriving Repr, DecidableEq

/-- The Torus SDK instance handle, with the two flags the connector reads. -/
structure Torus where
  isLoggedIn : Bool
  isInitialized : Bool
deriving Repr, DecidableEq

/-- The connector closure's mutable state: `__torus` and `network`. -/
structure ConnectorState where
  torus : Option Torus
  network : Option Network
deriving Repr, DecidableEq

/-- The request-capable provider object returned by `getProvider`. -/
structure Provider where
deriving Repr, DecidableEq

/-- Outcomes of the external SDK and provider calls, fixed per run. -/
structure World where
  ethAccountsResult : Except JsError (Option (List (Option String)))
  ethChainIdResult : Except JsError String
  loginResult : Except JsError Unit
  initResult : Except JsError Unit
  logoutResult : Except JsError Unit
  setProviderResult : String → Int → String → Except JsError Unit

/-- Framework events emitted through `config.emitter`. -/
inductive Event where
  | connectEv (accounts : List String) (chainId : Int)
  | disconnectEv
  | changeAccounts (accounts : List String)
  | changeChainId (chainId : Int)
deriving Repr, DecidableEq

/-- A pending JavaScript `Promise` object (an un-awaited async call result). -/
inductive PendingPromise where
  | pending
deriving Repr, DecidableEq

/-- JavaScript truthiness of an object value: a `Promise` object is always
truthy, whatever it will later resolve to. -/
def jsTruthyPromise (_ : PendingPromise) : Bool := true

/-- JavaScript truthiness of a provider object. -/
def jsTruthyProvider (_ : Provider) : Bool := true

/-- Source `isChainUnsupported`: `!chains.some((x) => x.id === chainId)`. -/
def isChainUnsupported (chains : List Chain) (chainId : Int) : Bool :=
  !(chains.any (fun x => x.id == chainId))

/-- Source `getTorus`: throws `Error("Torus instance not initialized")` when
`__torus` is `undefined`, otherwise returns the instance. -/
def getTorus (st : ConnectorState) : Except JsError Torus :=
  match st.torus with
  | none => Except.error (.error "Torus instance not initialized")
  | some t => Except.ok t

/-- Source `setup()`: creates a fresh SDK instance and resolves the network
descriptor from the configured chain id (default 1, `0` is falsy) and host
(default "mainnet", `""` is falsy); when no chain matches, only logs and
leaves `network` as it was. -/
def setup (chains : List Chain) (optChainId : Option Int) (optHost : Option String)
    (st : ConnectorState) : ConnectorState :=
  let chainId : Int :=
    match optChainId with
    | some c => if c == 0 then 1 else c
    | none => 1
  let host : String :=
    match optHost with
    | some h => if h == "" then "mainnet" else h
    | none => "mainnet"
  let t : Torus := { isLoggedIn := false, isInitialized := false }
  match chains.find? (fun x => x.id == chainId) with
  | some chain =>
      { torus := some t,
        network := some
          { host := host, chainId := chainId, networkName := chain.name,
            tickerName := chain.nativeCurrencyName,
            ticker := chain.nativeCurrencySymbol,
            blockExplorer := chain.blockExplorerUrl.getD "" } }
  | none => { torus := some t, network := st.network }

/-- Source `getProvider()`: fetches the instance through `getTorus` (throwing
when `setup` never ran), runs `init` when the SDK is not yet initialized,
shows the button (no modelled effect) and returns the provider object. -/
def getProvider (w : World) (st : ConnectorState) :
    Except JsError (Provider × ConnectorState) :=
  match st.torus with
  | none => Except.error (.error "Torus instance not initialized")
  | some t =>
      if !t.isInitialized then
        match w.initResult with
        | Except.error e => Except.error e
        | Except.ok _ =>
            Except.ok (⟨⟩, { st with torus := some { t with isInitialized := true } })
      else Except.ok (⟨⟩, st)

/-- The `reduce` body of `getAccounts`: pushes `getAddress(address)` for each
truthy entry (non-null, non-empty string), keeping order. -/
def checksumEntries (gA : String → String) (raw : List (Option String)) : List String :=
  raw.foldl
    (fun acc address =>
      match address with
      | some s => if s == "" then acc else acc ++ [gA s]
      | none => acc)
    []

/-- Source `getAccounts()`: obtains the provider, issues `eth_accounts`,
returns `[]` for a null or empty raw response, and otherwise the
checksum-normalized truthy entries. -/
def getAccounts (gA : String → String) (w : World) (st : ConnectorState) :
    Except JsError (List String × ConnectorState) :=
  match getProvider w st with
  | Except.error e => Except.error e
  | Except.ok (_, st1) =>
      match w.ethAccountsResult with
      | Except.error e => Except.error e
      | Except.ok raw =>
          match raw with
          | none => Except.ok ([], st1)
          | some l =>
              if l.length == 0 then Except.ok ([], st1)
              else Except.ok (checksumEntries gA l, st1)

/-- Source `getChainId()`: obtains the provider, issues `eth_chainId` and
converts the string response with `Number`. -/
def getChainId (jsN : String → Int) (w : World) (st : ConnectorState) :
    Except JsError (Int × ConnectorState) :=
  match getProvider w st with
  | Except.error e => Except.error e
  | Except.ok (_, st1) =>
      match w.ethChainIdResult with
      | Except.error e => Except.error e
      | Except.ok s => Except.ok (jsN s, st1)

/-- The `try` body of `isAuthorized()`: gets a provider, then the accounts,
and returns `accounts.length > 0 && !!provider`. -/
def isAuthorizedBody (gA : String → String) (w : World) (st : ConnectorState) :
    Except JsError Bool :=
  match getProvider w st with
  | Except.error e => Except.error e
  | Except.ok (p, st1) =>
      match getAccounts gA w st1 with
      | Except.error e => Except.error e
      | Except.ok (accounts, _) =>
          Except.ok (decide (0 < accounts.length) && jsTruthyProvider p)

/-- Source `isAuthorized()`: the body with its `catch` converting every
thrown error into the return value `false`. -/
def isAuthorized (gA : String → String) (w : World) (st : ConnectorState) :
    Except JsError Bool :=
  match isAuthorizedBody gA w st with
  | Except.ok b => Except.ok b
  | Except.error _ => Except.ok false

/-- The `try` body of `switchChain`, with the login guard's condition made
an explicit parameter: the source computes it as the JavaScript truthiness
test `!this.isAuthorized()` on the un-awaited promise. -/
def switchChainCore (guardBlocks : Bool) (chains : List Chain) (w : World)
    (st : ConnectorState) (chainId : Int) : Except JsError Chain :=
  match chains.find? (fun x => x.id == chainId) with
  | none => Except.error (.switchChainError (.error "chain not found on connector."))
  | some chain =>
      if guardBlocks then Except.error (.error "Please login first")
      else
        match getTorus st with
        | Except.error e => Except.error e
        | Except.ok _ =>
            match w.setProviderResult (chain.rpcUrlsDefaultHttp.headD "")
                chainId chain.name with
            | Except.error e => Except.error e
            | Except.ok _ => Except.ok chain

/-- The `try` body of `switchChain` as the source evaluates it: the guard
condition is `!` of the truthiness of the pending `this.isAuthorized()`
promise. -/
def switchChainBody (chains : List Chain) (w : World) (st : ConnectorState)
    (chainId : Int) : Except JsError Chain :=
  switchChainCore (!(jsTruthyPromise PendingPromise.pending)) chains w st chainId

/-- Source `switchChain({chainId})`: the body with its `catch`, which logs and
re-throws every error wrapped in `SwitchChainError`. -/
def switchChain (chains : List Chain) (w : World) (st : ConnectorState)
    (chainId : Int) : Except JsError Chain :=
  match switchChainBody chains w st chainId with
  | Except.ok chain => Except.ok chain
  | Except.error e => Except.error (.switchChainError e)

/-- The chain-resolution step of `connect`: when the caller's `chainId` is
truthy, differs from the connected chain and `this.switchChain` is a function
(always so in the source), attempt the switch and recompute `unsupported`;
otherwise keep the connected chain id and its support flag. -/
def resolveTargetChain (chains : List Chain) (w : World) (st4 : ConnectorState)
    (connectedChainId : Int) (params : Option Int) : Except JsError (Int × Bool) :=
  match params with
  | some cid =>
      if cid != 0 && connectedChainId != cid then
        match switchChain chains w st4 cid with
        | Except.error e => Except.error e
        | Except.ok chain => Except.ok (chain.id, isChainUnsupported chains chain.id)
      else Except.ok (connectedChainId, isChainUnsupported chains connectedChainId)
  | none => Except.ok (connectedChainId, isChainUnsupported chains connectedChainId)

/-- The login step of `connect`: `if (!getTorus().isLoggedIn) await
getTorus().login()`. When the instance is not logged in, a successful
`login` flips its logged-in flag; otherwise the step is a no-op. Returns
the state the rest of `connect` runs on. -/
def loginStep (w : World) (st1 : ConnectorState) (t : Torus) :
    Except JsError ConnectorState :=
  if !t.isLoggedIn then
    match w.loginResult with
    | Except.error e => Except.error e
    | Except.ok _ => Except.ok { st1 with torus := some { t with isLoggedIn := true } }
  else Except.ok st1

/-- Source `connect(params)`: gets the provider, logs in when needed,
registers the two provider listeners (no modelled effect), fetches accounts
and chain id, optionally switches chain, and fails with `SwitchChainError`
when the final chain id is unsupported. -/
def connect (gA : String → String) (jsN : String → Int) (chains : List Chain)
    (w : World) (st : ConnectorState) (params : Option Int) :
    Except JsError (List String × Int) :=
  match getProvider w st with
  | Except.error e => Except.error e
  | Except.ok (_, st1) =>
      match getTorus st1 with
      | Except.error e => Except.error e
      | Except.ok t =>
          match loginStep w st1 t with
          | Except.error e => Except.error e
          | Except.ok st2 =>
              match getAccounts gA w st2 with
              | Except.error e => Except.error e
              | Except.ok (accounts, st3) =>
                  match getChainId jsN w st3 with
                  | Except.error e => Except.error e
                  | Except.ok (connectedChainId, st4) =>
                      match resolveTargetChain chains w st4 connectedChainId params with
                      | Except.error e => Except.error e
                      | Except.ok (id, unsupported) =>
                          if unsupported then
                            Except.error
                              (.switchChainError (.error "chain not found on connector."))
                          else Except.ok (accounts, id)

/-- Source `disconnect()`: when an instance exists, awaits its `logout`;
the closure variables `__torus` and `network` are never reassigned. -/
def disconnect (w : World) (st : ConnectorState) :
    Except JsError Unit × ConnectorState :=
  match st.torus with
  | some _ =>
      (match w.logoutResult with
       | Except.error e => (Except.error e, st)
       | Except.ok _ => (Except.ok (), st))
  | none => (Except.ok (), st)

/-- Source `onAccountsChanged(accounts)`: emits `disconnect` when the list is
empty or its first entry is falsy, otherwise a `change` event carrying the
checksummed first address only. -/
def onAccountsChanged (gA : String → String) (accounts : List String) : List Event :=
  match accounts with
  | [] => [Event.disconnectEv]
  | a :: _ => if a == "" then [Event.disconnectEv] else [Event.changeAccounts [gA a]]

/-- What `onChainChanged` produces: the support flag it computes for the log
line, and the events it emits. -/
structure ChainChangedOutcome where
  loggedUnsupported : Bool
  events : List Event
deriving Repr, DecidableEq

/-- Source `onChainChanged(chainId)`: converts with `Number`, computes the
support flag only to log it, and emits a single `change` event. -/
def onChainChanged (jsN : String → Int) (chains : List Chain) (s : String) :
    ChainChangedOutcome :=
  let id := jsN s
  { loggedUnsupported := isChainUnsupported chains id,
    events := [Event.changeChainId id] }

/-- Concrete fixture: a chain with id 1. -/
def chainA : Chain :=
  { id := 1, name := "Ethereum", nativeCurrencyName := "Ether",
    nativeCurrencySymbol := "ETH", blockExplorerUrl := some "https://example.org",
    rpcUrlsDefaultHttp := ["https://rpc.one"] }

/-- Concrete fixture: a chain with id 2. -/
def chainB : Chain :=
  { id := 2, name := "Gnosis", nativeCurrencyName := "xDai",
    nativeCurrencySymbol := "XDAI", blockExplorerUrl := none,
    rpcUrlsDefaultHttp := ["https://rpc.two"] }

/-- Concrete fixture: the configured chain list `[chainA, chainB]`. -/
def chainsAB : List Chain := [chainA, chainB]

/-- Concrete fixture: a logged-in, initialized SDK instance. -/
def torusReady : Torus := { isLoggedIn := true, isInitialized := true }

/-- Concrete fixture: state after setup, login and init. -/
def stReady : ConnectorState := { torus := some torusReady, network := none }

/-- Concrete fixture: state before any `setup` call. -/
def stNone : ConnectorState := { torus := none, network := none }

/-- Concrete fixture: a world where every external call succeeds, one account
is reported and the chain id answer is "0x1". -/
def okWorld : World :=
  { ethAccountsResult := Except.ok (some [some "0xabc"]),
    ethChainIdResult := Except.ok "0x1",
    loginResult := Except.ok (),
    initResult := Except.ok (),
    logoutResult := Except.ok (),
    setProviderResult := fun _ _ _ => Except.ok () }

/-- Concrete fixture: like `okWorld` but `setProvider` fails. -/
def failSwitchWorld : World :=
  { okWorld with setProviderResult := fun _ _ _ => Except.error (.error "boom") }

/-- Concrete fixture: like `okWorld` but `eth_accounts` answers
`["0xabc", "", null]`. -/
def mixedWorld : World :=
  { okWorld with ethAccountsResult := Except.ok (some [some "0xabc", some "", none]) }

/-- Concrete stand-in for the abstract checksum function. -/
def idStr : String → String := fun s => s

/-- Concrete stand-in for `Number`, sending every string to 1. -/
def jsNum1 : String → Int := fun _ => 1

lemma switchChain_error_shape (chains : List Chain) (w : World) (st : ConnectorState)
    (cid : Int) (e : JsError) (he : switchChain chains w st cid = Except.error e) :
    ∃ e2, e = JsError.switchChainError e2 := by
  unfold switchChain at he
  cases hb : switchChainBody chains w st cid with
  | ok chain => rw [hb] at he; exact absurd he (by simp)
  | error e2 =>
      rw [hb] at he
      exact ⟨e2, by injection he with h; exact h.symm⟩

lemma switchChain_ok_iff_body (chains : List Chain) (w : World) (st : ConnectorState)
    (cid : Int) (ch : Chain) :
    switchChain chains w st cid = Except.ok ch ↔
      switchChainBody chains w st cid = Except.ok ch := by
  unfold switchChain
  cases hb : switchChainBody chains w st cid <;> simp

lemma switchChainBody_guard_off (chains : List Chain) (w : World) (st : ConnectorState)
    (cid : Int) :
    switchChainBody chains w st cid = switchChainCore false chains w st cid := rfl

lemma switchChainCore_ok_iff (chains : List Chain) (w : World) (st : ConnectorState)
    (cid : Int) (t : Torus) (ht : st.torus = some t) (ch : Chain) :
    switchChainCore false chains w st cid = Except.ok ch ↔
      (chains.find? (fun x => x.id == cid) = some ch ∧
       w.setProviderResult (ch.rpcUrlsDefaultHttp.headD "") cid ch.name = Except.ok ()) := by
  unfold switchChainCore
  cases hf : chains.find? (fun x => x.id == cid) with
  | none => simp
  | some chain =>
      simp only [Bool.false_eq_true, if_false, getTorus, ht]
      cases hsp : w.setProviderResult (chain.rpcUrlsDefaultHttp.headD "") cid chain.name with
      | error e =>
          constructor
          · intro h; exact absurd h (by simp)
          · rintro ⟨hc, hs⟩
            injection hc with hc
            subst hc
            rw [hsp] at hs
            exact absurd hs (by simp)
      | ok u =>
          cases u
          constructor
          · intro h
            injection h with h
            subst h
            exact ⟨rfl, hsp⟩
          · rintro ⟨hc, _⟩
            injection hc with hc
            subst hc
            rfl

/-- C1: `switchChain({chainId: c})` succeeds, returning the matching chain
descriptor, exactly when some configured chain has id `c` and the SDK's
`setProvider` call succeeds on the instance (present once `setup` ran); and
every failure it surfaces is of the unsupported-chain error kind
(`SwitchChainError`), never any other kind. -/
theorem c1_switchChain_success_iff (chains : List Chain) (w : World)
    (st : ConnectorState) (cid : Int) :
    (∀ e, switchChain chains w st cid = Except.error e → e.isSwitchChainError = true)
    ∧ (∀ t, st.torus = some t → ∀ ch,
        (switchChain chains w st cid = Except.ok ch ↔
          (chains.find? (fun x => x.id == cid) = some ch ∧
           w.setProviderResult (ch.rpcUrlsDefaultHttp.headD "") cid ch.name
             = Except.ok ()))) := by
  constructor
  · intro e he
    obtain ⟨e2, rfl⟩ := switchChain_error_shape chains w st cid e he
    rfl
  · intro t ht ch
    rw [switchChain_ok_iff_body, switchChainBody_guard_off,
      switchChainCore_ok_iff chains w st cid t ht ch]

/-- C7: `isAuthorized()` never propagates an exception — it always returns a
boolean — and it returns `true` exactly when a provider was obtained and the
retrieved account list is non-empty; every internal error yields `false`. -/
theorem c7_isAuthorized_never_throws_iff (gA : String → String) (w : World)
    (st : ConnectorState) :
    (∃ b, isAuthorized gA w st = Except.ok b)
    ∧ (isAuthorized gA w st = Except.ok true ↔
        ∃ p st1 accs st2, getProvider w st = Except.ok (p, st1) ∧
          getAccounts gA w st1 = Except.ok (accs, st2) ∧ accs ≠ []) := by
  constructor
  · unfold isAuthorized
    cases hb : isAuthorizedBody gA w st with
    | ok b => exact ⟨b, rfl⟩
    | error e => exact ⟨false, rfl⟩
  · constructor
    · intro h
      unfold isAuthorized isAuthorizedBody at h
      cases hp : getProvider w st with
      | error e => rw [hp] at h; simp at h
      | ok pr =>
          obtain ⟨p, st1⟩ := pr
          simp only [hp] at h
          cases ha : getAccounts gA w st1 with
          | error e => simp only [ha] at h; simp at h
          | ok ar =>
              obtain ⟨accs, st2⟩ := ar
              simp only [ha] at h
              simp only [jsTruthyProvider, Bool.and_true, Except.ok.injEq,
                decide_eq_true_eq] at h
              exact ⟨p, st1, accs, st2, rfl, ha, List.length_pos.mp h⟩
    · rintro ⟨p, st1, accs, st2, hp, ha, hne⟩
      unfold isAuthorized isAuthorizedBody
      simp only [hp, ha]
      simp [jsTruthyProvider, List.length_pos, hne]

/-- C2: the login guard in `switchChain` tests the JavaScript truthiness of
the un-awaited `this.isAuthorized()` promise, which is always truthy, so the
"Please login first" branch is unreachable: the body behaves exactly as with
the guard condition forced off, and `switchChain` never surfaces the login
error for any input, state or world. -/
theorem c2_switchChain_login_guard_unreachable (chains : List Chain) (w : World)
    (st : ConnectorState) (chainId : Int) :
    (∀ p : PendingPromise, jsTruthyPromise p = true)
    ∧ switchChainBody chains w st chainId = switchChainCore false chains w st chainId
    ∧ switchChain chains w st chainId ≠ Except.error (JsError.error "Please login first") := by
  refine ⟨fun p => rfl, rfl, ?_⟩
  intro he
  obtain ⟨e2, h2⟩ := switchChain_error_shape chains w st chainId _ he
  exact JsError.noConfusion h2

/-- C8: `onAccountsChanged` emits exactly one disconnect event when the list
is empty or its first entry is falsy, and otherwise exactly one change event
whose payload is the one-element list holding the checksummed first address. -/
theorem c8_onAccountsChanged_events (gA : String → String) (accounts : List String) :
    ((accounts = [] ∨ accounts.head? = some "") →
      onAccountsChanged gA accounts = [Event.disconnectEv])
    ∧ (∀ a rest, accounts = a :: rest → (a == "") = false →
        onAccountsChanged gA accounts = [Event.changeAccounts [gA a]]) := by
  constructor
  · rintro (rfl | h)
    · rfl
    · cases accounts with
      | nil => rfl
      | cons a rest =>
          simp only [List.head?, Option.some.injEq] at h
          subst h
          simp [onAccountsChanged]
  · rintro a rest rfl h
    simp [onAccountsChanged, h]

/-- C9: `disconnect` never changes the adapter's own state: the instance
handle and the network descriptor are exactly what they were before the call;
an existing instance is logged out (the call's result is the logout outcome)
but never cleared, and with no instance the call is a no-op. -/
theorem c9_disconnect_preserves_state (w : World) (st : ConnectorState) :
    (disconnect w st).2 = st
    ∧ (disconnect w st).2.torus = st.torus
    ∧ (disconnect w st).2.network = st.network
    ∧ (st.torus = none → (disconnect w st).1 = Except.ok ())
    ∧ (st.torus.isSome = true → (disconnect w st).1 = w.logoutResult) := by
  unfold disconnect
  cases hst : st.torus with
  | none => simp [hst]
  | some t => cases hl : w.logoutResult <;> simp [hst, hl]

lemma checksumEntries_foldl (gA : String → String) (raw : List (Option String)) :
    ∀ acc : List String,
      raw.foldl
        (fun acc address =>
          match address with
          | some s => if s == "" then acc else acc ++ [gA s]
          | none => acc) acc
      = acc ++ ((raw.filterMap id).filter (fun s => !(s == ""))).map gA := by
  induction raw with
  | nil => intro acc; simp
  | cons a l ih =>
      intro acc
      cases a with
      | none => simpa using ih acc
      | some s =>
          by_cases hs : (s == "") = true
          · have hs2 : s = "" := by simpa using hs
            subst hs2
            simpa using ih acc
          · simp only [List.foldl_cons, List.filterMap_cons, id, List.filter_cons,
              hs, Bool.not_false, if_neg, Bool.false_eq_true, not_false_iff]
            rw [ih (acc ++ [gA s])]
            simp

lemma checksumEntries_eq (gA : String → String) (raw : List (Option String)) :
    checksumEntries gA raw
      = ((raw.filterMap id).filter (fun s => !(s == ""))).map gA := by
  have h := checksumEntries_foldl gA raw []
  simpa [checksumEntries] using h

/-- C4: for every raw list the provider's `eth_accounts` request returns,
`getAccounts` returns exactly the checksum-normalized forms of the non-null,
non-empty entries in order — every returned entry is the checksum image of
some truthy raw entry — and a null raw response yields the empty list. -/
theorem c4_getAccounts_checksummed (gA : String → String) (w : World)
    (st : ConnectorState) (pr : Provider × ConnectorState)
    (hp : getProvider w st = Except.ok pr) :
    (∀ raw, w.ethAccountsResult = Except.ok (some raw) →
        getAccounts gA w st
          = Except.ok ((((raw.filterMap id).filter (fun s => !(s == ""))).map gA), pr.2)
        ∧ ∀ a ∈ (((raw.filterMap id).filter (fun s => !(s == ""))).map gA),
            ∃ s, (s == "") = false ∧ some s ∈ raw ∧ a = gA s)
    ∧ (w.ethAccountsResult = Except.ok none →
        getAccounts gA w st = Except.ok ([], pr.2)) := by
  obtain ⟨p, st1⟩ := pr
  constructor
  · intro raw hacc
    constructor
    · unfold getAccounts
      simp only [hp, hacc]
      by_cases h0 : (raw.length == 0) = true
      · have h02 : raw = [] := by simpa using h0
        subst h02
        simp
      · simp only [h0, Bool.false_eq_true, if_false, checksumEntries_eq]
    · intro a ha
      simp only [List.mem_map, List.mem_filter, List.mem_filterMap, id] at ha
      obtain ⟨b, ⟨⟨ob, hob, hid⟩, hbne⟩, hba⟩ := ha
      subst hba
      subst hid
      exact ⟨b, by simpa using hbne, hob, rfl⟩
  · intro hacc
    unfold getAccounts
    simp only [hp, hacc]

/-- C4 witness: for the raw response `["0xabc", "", null]` (with the identity
function standing for the abstract checksum) only the first address survives. -/
theorem c4_witness_mixed_raw :
    getAccounts idStr mixedWorld stReady = Except.ok (["0xabc"], stReady) := by
  have h := ((c4_getAccounts_checksummed idStr mixedWorld stReady (⟨⟩, stReady) rfl).1
    [some "0xabc", some "", none] rfl).1
  exact h.trans (by rfl)

/-- C3 counterexample: with the target chain configured but `setup` never run,
`switchChain` does not surface the plain uninitialized-instance error — its
catch re-wraps it, so the surfaced error is of the `SwitchChainError` kind,
a different error than the claim allows. -/
theorem c3_counterexample_switchChain_wraps :
    switchChain chainsAB okWorld stNone 1
      = Except.error (JsError.switchChainError
          (JsError.error "Torus instance not initialized"))
    ∧ JsError.switchChainError (JsError.error "Torus instance not initialized")
      ≠ JsError.error "Torus instance not initialized" :=
  ⟨rfl, fun hq => JsError.noConfusion hq⟩

/-- C3 amended: with `setup` never run (`__torus` undefined), `connect`,
`getAccounts`, `getChainId` and `getProvider` fail with exactly the
uninitialized-instance error; `switchChain` (once the target chain is found)
fails with that same error wrapped in `SwitchChainError` by its catch-all. -/
theorem c3_amended_uninitialized (gA : String → String) (jsN : String → Int)
    (chains : List Chain) (w : World) (st : ConnectorState) (params : Option Int)
    (cid : Int) (h : st.torus = none) :
    getProvider w st = Except.error (JsError.error "Torus instance not initialized")
    ∧ getAccounts gA w st = Except.error (JsError.error "Torus instance not initialized")
    ∧ getChainId jsN w st = Except.error (JsError.error "Torus instance not initialized")
    ∧ connect gA jsN chains w st params
        = Except.error (JsError.error "Torus instance not initialized")
    ∧ ((chains.find? (fun x => x.id == cid)).isSome = true →
        switchChain chains w st cid
          = Except.error (JsError.switchChainError
              (JsError.error "Torus instance not initialized"))) := by
  have hp : getProvider w st
      = Except.error (JsError.error "Torus instance not initialized") := by
    unfold getProvider
    rw [h]
  refine ⟨hp, ?_, ?_, ?_, ?_⟩
  · unfold getAccounts
    simp only [hp]
  · unfold getChainId
    simp only [hp]
  · unfold connect
    simp only [hp]
  · intro hf
    obtain ⟨ch, hch⟩ := Option.isSome_iff_exists.mp hf
    unfold switchChain switchChainBody switchChainCore
    simp only [hch, jsTruthyPromise, Bool.not_true, Bool.false_eq_true, if_false,
      getTorus, h]

/-- C3 witness: at a concrete uninitialized state, `connect` fails with
exactly the uninitialized-instance error. -/
theorem c3_witness_uninitialized :
    connect idStr jsNum1 chainsAB okWorld stNone none
      = Except.error (JsError.error "Torus instance not initialized") :=
  (c3_amended_uninitialized idStr jsNum1 chainsAB okWorld stNone none 1 rfl).2.2.2.1

lemma resolveTargetChain_ok_flag (chains : List Chain) (w : World) (st4 : ConnectorState)
    (ccid : Int) (params : Option Int) (id : Int) (u : Bool)
    (h : resolveTargetChain chains w st4 ccid params = Except.ok (id, u)) :
    u = isChainUnsupported chains id := by
  unfold resolveTargetChain at h
  cases params with
  | none =>
      simp only [Except.ok.injEq, Prod.mk.injEq] at h
      obtain ⟨h1, h2⟩ := h
      subst h1
      exact h2.symm
  | some cid =>
      dsimp only at h
      by_cases hc : (cid != 0 && ccid != cid) = true
      · rw [if_pos hc] at h
        cases hs : switchChain chains w st4 cid with
        | error e => rw [hs] at h; exact absurd h (by simp)
        | ok chain =>
            rw [hs] at h
            simp only [Except.ok.injEq, Prod.mk.injEq] at h
            obtain ⟨h1, h2⟩ := h
            subst h1
            exact h2.symm
      · rw [if_neg hc] at h
        simp only [Except.ok.injEq, Prod.mk.injEq] at h
        obtain ⟨h1, h2⟩ := h
        subst h1
        exact h2.symm

lemma switchChain_ok_find (chains : List Chain) (w : World) (st : ConnectorState)
    (cid : Int) (ch : Chain) (h : switchChain chains w st cid = Except.ok ch) :
    chains.find? (fun x => x.id == cid) = some ch := by
  rw [switchChain_ok_iff_body, switchChainBody_guard_off] at h
  unfold switchChainCore at h
  cases hf : chains.find? (fun x => x.id == cid) with
  | none => simp only [hf] at h; exact absurd h (by simp)
  | some chain =>
      simp only [hf] at h
      repeat' (first
        | split at h
        | simp at h)
      simp [h]

lemma switchChain_ok_supported (chains : List Chain) (w : World) (st : ConnectorState)
    (cid : Int) (ch : Chain) (h : switchChain chains w st cid = Except.ok ch) :
    isChainUnsupported chains ch.id = false := by
  have hf := switchChain_ok_find chains w st cid ch h
  have hmem := List.mem_of_find?_eq_some hf
  have hany : (chains.any fun x => x.id == ch.id) = true :=
    List.any_eq_true.mpr ⟨ch, hmem, by simp⟩
  unfold isChainUnsupported
  rw [hany]
  rfl

/-- C5: `connect` never reports an unsupported chain id — every successful
run returns a supported id — and in every run whose resolved chain id is
unsupported (the earlier steps succeeded: the login step, whether the
instance was already logged in or the interactive login succeeded, and the
account retrieval) it fails with exactly the unsupported-chain
`SwitchChainError`. -/
theorem c5_connect_unsupported_final_chain (gA : String → String) (jsN : String → Int)
    (chains : List Chain) (w : World) (st : ConnectorState) (params : Option Int) :
    (∀ r, connect gA jsN chains w st params = Except.ok r →
        isChainUnsupported chains r.2 = false)
    ∧ (∀ p st1 t st2 accs st3 ccid st4,
        getProvider w st = Except.ok (p, st1) →
        getTorus st1 = Except.ok t →
        loginStep w st1 t = Except.ok st2 →
        getAccounts gA w st2 = Except.ok (accs, st3) →
        getChainId jsN w st3 = Except.ok (ccid, st4) →
        (params = none ∨ ∃ cid, params = some cid ∧ (cid = 0 ∨ cid = ccid)) →
        isChainUnsupported chains ccid = true →
        connect gA jsN chains w st params
          = Except.error (JsError.switchChainError
              (JsError.error "chain not found on connector."))) := by
  constructor
  · intro r hr
    unfold connect at hr
    repeat' (first
      | split at hr
      | simp at hr)
    rename_i id u heqr hneg
    subst hr
    have hu := resolveTargetChain_ok_flag chains w _ _ params id u heqr
    simp only [Bool.not_eq_true] at hneg
    rw [hu] at hneg
    simpa using hneg
  · intro p st1 t st2 accs st3 ccid st4 hp ht hlog ha hc hns hu
    have hr : resolveTargetChain chains w st4 ccid params = Except.ok (ccid, true) := by
      rcases hns with rfl | ⟨cid, rfl, hcid⟩
      · unfold resolveTargetChain
        rw [hu]
      · unfold resolveTargetChain
        dsimp only
        rcases hcid with rfl | rfl
        · simp [hu]
        · simp [hu]
    unfold connect
    simp only [hp, ht, hlog, ha, hc, hr]
    simp

/-- C6 counterexample: a concrete run in which the requested chain (id 2)
differs from the connected chain (id 1), the switch is attempted and fails
(`setProvider` rejects); `connect` then fails with the wrapped switch error
and reports no chain id at all, contradicting "the resulting chain id becomes
the chain id reported by connect regardless of whether the switch attempt
succeeds or fails". -/
theorem c6_counterexample_switch_failure_aborts :
    connect idStr jsNum1 chainsAB failSwitchWorld stReady (some 2)
      = Except.error (JsError.switchChainError (JsError.error "boom")) := rfl

/-- C6 amended: in every `connect` run that reaches the switch decision
(login step succeeded, interactively or not) with a truthy (nonzero) target
chain id differing from the connected one, `connect` attempts the switch; if
the switch succeeds, the switched chain's id becomes the reported chain id,
and if the switch fails, `connect` fails with the switch's error instead of
reporting a chain id. -/
theorem c6_amended_switch_outcome (gA : String → String) (jsN : String → Int)
    (chains : List Chain) (w : World) (st : ConnectorState) (cid : Int)
    (p : Provider) (st1 : ConnectorState) (t : Torus) (st2 : ConnectorState)
    (accs : List String) (st3 : ConnectorState) (ccid : Int) (st4 : ConnectorState)
    (hp : getProvider w st = Except.ok (p, st1))
    (ht : getTorus st1 = Except.ok t)
    (hlog : loginStep w st1 t = Except.ok st2)
    (ha : getAccounts gA w st2 = Except.ok (accs, st3))
    (hc : getChainId jsN w st3 = Except.ok (ccid, st4))
    (hcid0 : cid ≠ 0) (hne : ccid ≠ cid) :
    (∀ ch, switchChain chains w st4 cid = Except.ok ch →
        connect gA jsN chains w st (some cid) = Except.ok (accs, ch.id))
    ∧ (∀ e, switchChain chains w st4 cid = Except.error e →
        connect gA jsN chains w st (some cid) = Except.error e) := by
  have hcond : (cid != 0 && ccid != cid) = true := by
    simp [bne_iff_ne, hcid0, hne]
  constructor
  · intro ch hsw
    have hsupp := switchChain_ok_supported chains w st4 cid ch hsw
    have hr : resolveTargetChain chains w st4 ccid (some cid)
        = Except.ok (ch.id, false) := by
      unfold resolveTargetChain
      dsimp only
      rw [if_pos hcond]
      simp only [hsw]
      rw [hsupp]
    unfold connect
    simp only [hp, ht, hlog, ha, hc, hr, Bool.false_eq_true, if_false]
  · intro e hsw
    have hr : resolveTargetChain chains w st4 ccid (some cid)
        = Except.error e := by
      unfold resolveTargetChain
      dsimp only
      rw [if_pos hcond, hsw]
    unfold connect
    simp only [hp, ht, hlog, ha, hc, hr]

/-- C6 witness: in a concrete run where the switch to chain id 2 succeeds,
`connect` reports the switched chain's id. -/
theorem c6_witness_switch_success :
    connect idStr jsNum1 chainsAB okWorld stReady (some 2)
      = Except.ok (["0xabc"], 2) := by
  have h := (c6_amended_switch_outcome idStr jsNum1 chainsAB okWorld stReady 2
    ⟨⟩ stReady torusReady stReady ["0xabc"] stReady 1 stReady
    rfl rfl rfl rfl rfl (by decide) (by decide)).1 chainB rfl
  exact h.trans (by rfl)

/-- C10: `onChainChanged` emits exactly one change event carrying `Number(s)`
as the chain id, even when that id is unsupported; the support check is
computed only for the log line, and no disconnect event is ever emitted. -/
theorem c10_onChainChanged_single_change (jsN : String → Int) (chains : List Chain)
    (s : String) :
    (onChainChanged jsN chains s).events = [Event.changeChainId (jsN s)]
    ∧ Event.disconnectEv ∉ (onChainChanged jsN chains s).events
    ∧ (onChainChanged jsN chains s).loggedUnsupported = isChainUnsupported chains (jsN s) := by
  refine ⟨rfl, ?_, rfl⟩
  simp [onChainChanged]

end TorusConnector
